import Mathlib

/-!
Shallow embedding of the adapter execution core of `sqladapterbase.ts`
(class `SqlAdapterBase`), the single source file of this repository.

Modelling conventions:
* JavaScript values bound as SQL parameters are modelled by `Value`; a JS
  array passed as a single (non-spread) argument is `Value.arr`, and the JS
  `undefined` produced by out-of-range indexing is modelled as `Value.null`.
* The three external collaborators (Statement Source, Record Mapper, Query
  Executor) are explicit structures of pure functions.  Record mutation
  (`load`, `setKey`) is modelled by returning the updated record; a mapper
  `load` failure is an `Except.error`.
* Every operation returns its result together with a trace of collaborator
  interactions (`Event` list): statement lookups, the db-api context lookup,
  parameter extraction, `exec`/`query` calls, cursor advancement and close,
  and mapper `create`/`load`/`setKey` calls.  Properties about "called
  exactly once", ordering and cursor lifecycle are stated over the trace.
* The async generator of `selectMany` is lazy and single-pass; consumption
  is modelled by a `budget : Option Nat` (`none` = drain fully, `some k` =
  consumer abandons after taking `k` records).  Per JS semantics, a
  generator abandoned before its first pull never runs its body at all.
-/

/-- A database value: an integer, a string, null/undefined, or an array of
values (a JS array passed as one argument is itself a value). -/
inductive Value where
  | int : Int → Value
  | str : String → Value
  | null : Value
  | arr : List Value → Value

mutual

/-- Decidable equality for `Value` (manual, since the inductive nests through
`List`). -/
def Value.decEq : (a b : Value) → Decidable (a = b)
  | .int a, .int b =>
    if h : a = b then .isTrue (by rw [h]) else .isFalse (fun hc => h (by cases hc; rfl))
  | .str a, .str b =>
    if h : a = b then .isTrue (by rw [h]) else .isFalse (fun hc => h (by cases hc; rfl))
  | .null, .null => .isTrue rfl
  | .arr xs, .arr ys =>
    match Value.decEqList xs ys with
    | .isTrue h => .isTrue (by rw [h])
    | .isFalse h => .isFalse (fun hc => h (by cases hc; rfl))
  | .int _, .str _ => .isFalse (by intro h; cases h)
  | .int _, .null => .isFalse (by intro h; cases h)
  | .int _, .arr _ => .isFalse (by intro h; cases h)
  | .str _, .int _ => .isFalse (by intro h; cases h)
  | .str _, .null => .isFalse (by intro h; cases h)
  | .str _, .arr _ => .isFalse (by intro h; cases h)
  | .null, .int _ => .isFalse (by intro h; cases h)
  | .null, .str _ => .isFalse (by intro h; cases h)
  | .null, .arr _ => .isFalse (by intro h; cases h)
  | .arr _, .int _ => .isFalse (by intro h; cases h)
  | .arr _, .str _ => .isFalse (by intro h; cases h)
  | .arr _, .null => .isFalse (by intro h; cases h)

/-- Decidable equality for lists of `Value`. -/
def Value.decEqList : (xs ys : List Value) → Decidable (xs = ys)
  | [], [] => .isTrue rfl
  | [], _ :: _ => .isFalse (by intro h; cases h)
  | _ :: _, [] => .isFalse (by intro h; cases h)
  | x :: xs, y :: ys =>
    match Value.decEq x y with
    | .isFalse h1 => .isFalse (fun hc => h1 (by cases hc; rfl))
    | .isTrue h1 =>
      match Value.decEqList xs ys with
      | .isTrue h2 => .isTrue (by rw [h1, h2])
      | .isFalse h2 => .isFalse (fun hc => h2 (by cases hc; rfl))

end

instance : DecidableEq Value := Value.decEq

/-- A fetched row: the tuple of column values, accessed positionally
(the source only uses positional access: `rows.row[0]` and `load(row, _)`). -/
abbrev Row := List Value

/-- JS indexing `row[0]`: the first column value, or undefined (modelled as
`Value.null`) when the row is empty. -/
def rowFirst (r : Row) : Value := r.headD Value.null

/-- Modelled from the spec (db-api.ts is not under src/): a `ParamMap` is a
mapping of column name to filter value; JS object key enumeration order is
modelled by an association list in insertion order. -/
abbrev ParamMap := List (String × Value)

/-- Object.keys of a param map: the column names in enumeration order. -/
def paramKeys (m : ParamMap) : List String := m.map (fun p => p.1)

/-- Modelled from the spec (db-api.ts is not under src/): `toParamArray`
flattens the filter mapping into positional bind values in the order of the
mapping's key enumeration; an absent mapping yields no parameters. -/
def toParamArray : Option ParamMap → List Value
  | none => []
  | some m => m.map (fun p => p.2)

/-- Modelled from the spec (types.ts is not under src/): `MappingFlags` is a
bitset with the three flags below. -/
def MappingFlags.generatedId : Nat := 1

/-- Bit for the generatedOnInsert mapping flag. -/
def MappingFlags.generatedOnInsert : Nat := 2

/-- Bit for the generatedOnUpdate mapping flag. -/
def MappingFlags.generatedOnUpdate : Nat := 4

/-- Modelled from the spec (types.ts is not under src/): test whether a flag
bit is set in a mapping-flags bitset. -/
def hasMappingFlag (flags flag : Nat) : Bool := flags &&& flag == flag

/-- Error code constants of `AdapterError` in the source. -/
def AdapterError.MISSING_STATEMENT : String := "adapter:missing-statement"

/-- Error code of `NON_QUERY` in the source. -/
def AdapterError.NON_QUERY : String := "adapter:non-query"

/-- Failures an adapter-core operation can raise: a `RecordError` with its
code and message (MissingStatement / NonQueryResult), the context-lookup
failure when no db api is present, or a mapper `load` failure propagated
unchanged. -/
inductive Err where
  | recordError (code : String) (msg : String)
  | noDbApi
  | mapError (msg : String)
deriving DecidableEq

/-- One collaborator interaction of the adapter core, in call order. -/
inductive Event where
  | getInsertSQL
  | getUpdateSQL
  | getDeleteSQL
  | getSelectSQL (cols : List String)
  | requireDbApi
  | getInsertParams
  | getUpdateParams
  | getDeleteParams
  | execCall (sql : String) (args : List Value)
  | queryCall (sql : String) (args : List Value)
  | cursorNext (hasRow : Bool)
  | cursorClose
  | mapperCreate
  | mapperLoad (row : Row)
  | mapperSetKey (v : Value)
deriving DecidableEq

/-- Classifier: is the event an executor `exec` call. -/
def Event.isExecCall : Event → Bool
  | .execCall _ _ => true
  | _ => false

/-- Classifier: is the event an executor `query` call (a cursor open). -/
def Event.isQueryCall : Event → Bool
  | .queryCall _ _ => true
  | _ => false

/-- Classifier: is the event a cursor close. -/
def Event.isCursorClose : Event → Bool
  | .cursorClose => true
  | _ => false

/-- Classifier: is the event a cursor advancement. -/
def Event.isCursorNext : Event → Bool
  | .cursorNext _ => true
  | _ => false

/-- Classifier: is the event a mapper `create` call. -/
def Event.isMapperCreate : Event → Bool
  | .mapperCreate => true
  | _ => false

/-- Classifier: is the event a mapper `load` call. -/
def Event.isMapperLoad : Event → Bool
  | .mapperLoad _ => true
  | _ => false

/-- Classifier: is the event a mapper `setKey` call. -/
def Event.isMapperSetKey : Event → Bool
  | .mapperSetKey _ => true
  | _ => false

/-- Classifier: is the event a mapper parameter extraction
(getInsertParams / getUpdateParams / getDeleteParams). -/
def Event.isParamExtraction : Event → Bool
  | .getInsertParams => true
  | .getUpdateParams => true
  | .getDeleteParams => true
  | _ => false

/-- The mapper `load` calls of a trace, in order. -/
def loadEvents (tr : List Event) : List Event := tr.filter Event.isMapperLoad

/-- The mapper `setKey` calls of a trace, in order. -/
def setKeyEvents (tr : List Event) : List Event := tr.filter Event.isMapperSetKey

/-- The Statement Source collaborator (interface `SqlSource` in types.ts):
per-operation SQL text, absent when not defined; select SQL is derived from
a list of filter column names and always resolves. -/
structure SqlSource where
  getInsertSQL : Option String
  getUpdateSQL : Option String
  getDeleteSQL : Option String
  getSelectSQL : List String → String

/-- The Record Mapper collaborator (interface `RecordMapper` in types.ts):
creates blank records, loads a row onto a record (possibly failing), extracts
ordered parameter values, sets the generated key, and reports the
generation-mode flags bitset. -/
structure RecordMapper (Record : Type) where
  create : Record
  load : Row → Record → Except String Record
  getInsertParams : Record → List Value
  getUpdateParams : Record → List Value
  getDeleteParams : Record → List Value
  setKey : Record → Value → Record
  flags : Nat

/-- The Query Executor obtained from the call context (`DbApi` in db-api.ts):
`query` is modelled as a deterministic oracle giving the result rows of a
statement with its positional arguments; `exec` has no result. -/
structure DbApi where
  queryRows : String → List Value → List Row

/-- The ambient call context: modelled as carrying the db api or not
(`Context.as(ctx).require(getDbApi)` throws when absent; modelled from the
spec, context.ts is not under src/). -/
structure IContext where
  dbApi : Option DbApi

/-- The adapter core under verification: constructed from exactly a
Statement Source and a Record Mapper (the executor is not a constructor
dependency). -/
structure SqlAdapterBase (Record : Type) where
  sqlSource : SqlSource
  mapper : RecordMapper Record

/-- Result of a write operation (`insert`, `update`, `delete`): the outcome,
the record after the call (the source mutates it in place), and the trace. -/
structure WriteResult (Record : Type) where
  outcome : Except Err Unit
  record : Record
  trace : List Event

/-- Result of `selectOne`: `ok none` is the explicit no-match result. -/
structure ReadResult (Record : Type) where
  outcome : Except Err (Option Record)
  trace : List Event

/-- Result of `selectMany` / `selectAll`: the records actually yielded to the
consumer, the final outcome of the generator, and the trace. -/
structure ManyResult (Record : Type) where
  records : List Record
  outcome : Except Err Unit
  trace : List Event

/-- `toRecord` of the source: a fresh record from `create`, then `load` of
the row onto it.  Returns the mapped record (or the load failure) and the
mapper events. -/
def SqlAdapterBase.toRecord {Record : Type} (a : SqlAdapterBase Record) (row : Row) :
    Except String Record × List Event :=
  (a.mapper.load row a.mapper.create, [Event.mapperCreate, Event.mapperLoad row])

/-- `insert` of the source: resolve insert SQL (MissingStatement when
absent), require the db api from the context, extract insert parameters,
then branch on the generation mode: generatedOnInsert loads the first
returned row back onto the record; generatedId sets the first column of the
first returned row as the key; otherwise a single non-returning `exec`.
Row-producing branches fail with NonQueryResult on an empty result and close
the cursor on every path. -/
def SqlAdapterBase.insert {Record : Type} (a : SqlAdapterBase Record)
    (ctx : IContext) (record : Record) : WriteResult Record :=
  match a.sqlSource.getInsertSQL with
  | none =>
    ⟨.error (.recordError AdapterError.MISSING_STATEMENT "INSERT SQL not defined"),
      record, [.getInsertSQL]⟩
  | some sql =>
    match ctx.dbApi with
    | none => ⟨.error .noDbApi, record, [.getInsertSQL, .requireDbApi]⟩
    | some db =>
      let params := a.mapper.getInsertParams record
      let tr0 : List Event := [.getInsertSQL, .requireDbApi, .getInsertParams]
      if hasMappingFlag a.mapper.flags MappingFlags.generatedOnInsert then
        match db.queryRows sql params with
        | [] =>
          ⟨.error (.recordError AdapterError.NON_QUERY
              "Expected inserted row, but insert query returned no row"),
            record,
            tr0 ++ [.queryCall sql params, .cursorNext false, .cursorClose]⟩
        | r :: _ =>
          match a.mapper.load r record with
          | .error e =>
            ⟨.error (.mapError e), record,
              tr0 ++ [.queryCall sql params, .cursorNext true, .mapperLoad r, .cursorClose]⟩
          | .ok rec =>
            ⟨.ok (), rec,
              tr0 ++ [.queryCall sql params, .cursorNext true, .mapperLoad r, .cursorClose]⟩
      else if hasMappingFlag a.mapper.flags MappingFlags.generatedId then
        match db.queryRows sql params with
        | [] =>
          ⟨.error (.recordError AdapterError.NON_QUERY
              "Expected generated id, but insert query returned no row"),
            record,
            tr0 ++ [.queryCall sql params, .cursorNext false, .cursorClose]⟩
        | r :: _ =>
          ⟨.ok (), a.mapper.setKey record (rowFirst r),
            tr0 ++ [.queryCall sql params, .cursorNext true,
              .mapperSetKey (rowFirst r), .cursorClose]⟩
      else
        ⟨.ok (), record, tr0 ++ [.execCall sql params]⟩

/-- `update` of the source: resolve update SQL (MissingStatement when
absent), require the db api, extract update parameters, then: with
generatedOnUpdate run a row-producing query, require a first row
(NonQueryResult when absent), load it back onto the record, closing the
cursor on every path; otherwise a single non-returning `exec`. -/
def SqlAdapterBase.update {Record : Type} (a : SqlAdapterBase Record)
    (ctx : IContext) (record : Record) : WriteResult Record :=
  match a.sqlSource.getUpdateSQL with
  | none =>
    ⟨.error (.recordError AdapterError.MISSING_STATEMENT "UPDATE SQL not defined"),
      record, [.getUpdateSQL]⟩
  | some sql =>
    match ctx.dbApi with
    | none => ⟨.error .noDbApi, record, [.getUpdateSQL, .requireDbApi]⟩
    | some db =>
      let params := a.mapper.getUpdateParams record
      let tr0 : List Event := [.getUpdateSQL, .requireDbApi, .getUpdateParams]
      if hasMappingFlag a.mapper.flags MappingFlags.generatedOnUpdate then
        match db.queryRows sql params with
        | [] =>
          ⟨.error (.recordError AdapterError.NON_QUERY
              "Expected updated row, but update query returned no row"),
            record,
            tr0 ++ [.queryCall sql params, .cursorNext false, .cursorClose]⟩
        | r :: _ =>
          match a.mapper.load r record with
          | .error e =>
            ⟨.error (.mapError e), record,
              tr0 ++ [.queryCall sql params, .cursorNext true, .mapperLoad r, .cursorClose]⟩
          | .ok rec =>
            ⟨.ok (), rec,
              tr0 ++ [.queryCall sql params, .cursorNext true, .mapperLoad r, .cursorClose]⟩
      else
        ⟨.ok (), record, tr0 ++ [.execCall sql params]⟩

/-- `delete` of the source: resolve delete SQL (MissingStatement when
absent), require the db api, extract delete parameters, then execute a
single non-returning command.  The source calls `db.exec(ctx, sql, params)`
WITHOUT the spread operator used on every other path, so the variadic
executor receives one argument holding the whole parameter array — modelled
as the single bind value `Value.arr params`. -/
def SqlAdapterBase.delete {Record : Type} (a : SqlAdapterBase Record)
    (ctx : IContext) (record : Record) : WriteResult Record :=
  match a.sqlSource.getDeleteSQL with
  | none =>
    ⟨.error (.recordError AdapterError.MISSING_STATEMENT "DELETE SQL not defined"),
      record, [.getDeleteSQL]⟩
  | some sql =>
    match ctx.dbApi with
    | none => ⟨.error .noDbApi, record, [.getDeleteSQL, .requireDbApi]⟩
    | some _db =>
      let params := a.mapper.getDeleteParams record
      ⟨.ok (), record,
        [.getDeleteSQL, .requireDbApi, .getDeleteParams,
          .execCall sql [Value.arr params]]⟩

/-- Overload resolution shared by `selectOne` and `selectMany`: an explicit
SQL string is used as-is with the (possibly absent) filter mapping; a filter
mapping alone derives the SQL from the Statement Source over the mapping's
key enumeration.  Returns the effective SQL, the effective mapping, and the
statement-source events. -/
def resolveSelect (src : SqlSource) (sqlOrParams : Sum String ParamMap)
    (paramsOpt : Option ParamMap) : String × Option ParamMap × List Event :=
  match sqlOrParams with
  | .inl sql => (sql, paramsOpt, [])
  | .inr m => (src.getSelectSQL (paramKeys m), some m, [.getSelectSQL (paramKeys m)])

/-- `selectOne` of the source: resolve the effective SQL and parameters,
require the db api, run the query; no first row returns the explicit
no-match result (`ok none`); otherwise the first row is mapped through
`toRecord` (`create` then `load`); the cursor is closed on every path after
at most one advancement. -/
def SqlAdapterBase.selectOne {Record : Type} (a : SqlAdapterBase Record)
    (ctx : IContext) (sqlOrParams : Sum String ParamMap)
    (paramsOpt : Option ParamMap) : ReadResult Record :=
  let res := resolveSelect a.sqlSource sqlOrParams paramsOpt
  let sql := res.1
  let tr0 := res.2.2
  match ctx.dbApi with
  | none => ⟨.error .noDbApi, tr0 ++ [.requireDbApi]⟩
  | some db =>
    let ps := toParamArray res.2.1
    match db.queryRows sql ps with
    | [] =>
      ⟨.ok none,
        tr0 ++ [.requireDbApi, .queryCall sql ps, .cursorNext false, .cursorClose]⟩
    | r :: _ =>
      match a.mapper.load r a.mapper.create with
      | .error e =>
        ⟨.error (.mapError e),
          tr0 ++ [.requireDbApi, .queryCall sql ps, .cursorNext true,
            .mapperCreate, .mapperLoad r, .cursorClose]⟩
      | .ok rec =>
        ⟨.ok (some rec),
          tr0 ++ [.requireDbApi, .queryCall sql ps, .cursorNext true,
            .mapperCreate, .mapperLoad r, .cursorClose]⟩

/-- The generator loop of `selectMany` (`while (await rows.next()) yield
toRecord(rows.row)` inside try/finally): `budget` is how many more records
the consumer will take (`none` = all).  A consumer abandoning at the current
yield resumes the generator into its finally block, which closes the cursor;
a mapper load failure also closes the cursor and propagates; normal
exhaustion advances once more (next = false) and closes. -/
def smLoop {Record : Type} (a : SqlAdapterBase Record) (rows : List Row)
    (budget : Option Nat) : List Record × List Event × Except Err Unit :=
  if budget = some 0 then ([], [.cursorClose], .ok ())
  else
    match rows with
    | [] => ([], [.cursorNext false, .cursorClose], .ok ())
    | r :: rest =>
      match a.mapper.load r a.mapper.create with
      | .error e =>
        ([], [.cursorNext true, .mapperCreate, .mapperLoad r, .cursorClose],
          .error (.mapError e))
      | .ok rec =>
        let nx := smLoop a rest (budget.map (fun n => n - 1))
        (rec :: nx.1, .cursorNext true :: .mapperCreate :: .mapperLoad r :: nx.2.1,
          nx.2.2)

/-- `selectMany` of the source, an async generator consumed up to `budget`
records: a generator abandoned before its first pull never starts, so
nothing at all executes; otherwise the body resolves the effective SQL and
parameters, requires the db api (failing there when absent), issues the
query, and enters the generator loop. -/
def SqlAdapterBase.selectMany {Record : Type} (a : SqlAdapterBase Record)
    (ctx : IContext) (sqlOrParams : Sum String ParamMap)
    (paramsOpt : Option ParamMap) (budget : Option Nat) : ManyResult Record :=
  if budget = some 0 then ⟨[], .ok (), []⟩
  else
    let res := resolveSelect a.sqlSource sqlOrParams paramsOpt
    let sql := res.1
    let tr0 := res.2.2
    match ctx.dbApi with
    | none => ⟨[], .error .noDbApi, tr0 ++ [.requireDbApi]⟩
    | some db =>
      let ps := toParamArray res.2.1
      let lp := smLoop a (db.queryRows sql ps) budget
      ⟨lp.1, lp.2.2, tr0 ++ [.requireDbApi, .queryCall sql ps] ++ lp.2.1⟩

/-- `selectAll` of the source: sugar for `selectMany` with an empty filter
mapping. -/
def SqlAdapterBase.selectAll {Record : Type} (a : SqlAdapterBase Record)
    (ctx : IContext) (budget : Option Nat) : ManyResult Record :=
  a.selectMany ctx (.inr []) none budget

/-- Concrete mapper over records modelled as their list of field values,
parameterized by the flags bitset; used to instantiate witnesses. -/
def demoMapper (flags : Nat) : RecordMapper (List Value) where
  create := []
  load := fun row _ => .ok row
  getInsertParams := fun r => r
  getUpdateParams := fun r => r
  getDeleteParams := fun r => r
  setKey := fun r v => v :: r
  flags := flags

/-- Concrete statement source with every statement defined. -/
def demoSource : SqlSource where
  getInsertSQL := some "INSERT"
  getUpdateSQL := some "UPDATE"
  getDeleteSQL := some "DELETE"
  getSelectSQL := fun cols => String.intercalate " " ("SELECT" :: cols)

/-- Concrete statement source with no write statement defined. -/
def bareSource : SqlSource where
  getInsertSQL := none
  getUpdateSQL := none
  getDeleteSQL := none
  getSelectSQL := fun _ => "SELECT"

/-- Concrete executor whose every query yields the given rows. -/
def demoDb (rows : List Row) : DbApi where
  queryRows := fun _ _ => rows

/-- Context carrying the demo executor. -/
def demoCtx (rows : List Row) : IContext := ⟨some (demoDb rows)⟩

/-- Context carrying no db api. -/
def noDbCtx : IContext := ⟨none⟩

example :
    ((⟨demoSource, demoMapper 1⟩ : SqlAdapterBase (List Value)).insert
      (demoCtx [[Value.int 42]]) []).record = [Value.int 42] := rfl

example :
    ((⟨demoSource, demoMapper 0⟩ : SqlAdapterBase (List Value)).selectMany
      (demoCtx [[Value.int 1], [Value.int 2]]) (.inr [("status", Value.str "active")])
      none none).records = [[Value.int 1], [Value.int 2]] := rfl

example :
    ((⟨demoSource, demoMapper 0⟩ : SqlAdapterBase (List Value)).selectMany
      (demoCtx [[Value.int 1], [Value.int 2], [Value.int 3]])
      (.inl "SELECT") none (some 1)).trace =
    [.requireDbApi, .queryCall "SELECT" [], .cursorNext true, .mapperCreate,
      .mapperLoad [Value.int 1], .cursorClose] := rfl

theorem smLoop_cursor_balance {Record : Type} (a : SqlAdapterBase Record) :
    ∀ (rows : List Row) (budget : Option Nat),
      (smLoop a rows budget).2.1.countP Event.isCursorClose = 1 ∧
      (smLoop a rows budget).2.1.countP Event.isQueryCall = 0 := by
  intro rows
  induction rows with
  | nil =>
    intro budget
    by_cases h : budget = some 0 <;>
      simp [smLoop, h, List.countP_cons, Event.isCursorClose, Event.isQueryCall]
  | cons r rest ih =>
    intro budget
    by_cases h : budget = some 0
    · simp [smLoop, h, List.countP_cons, Event.isCursorClose, Event.isQueryCall]
    · cases hl : a.mapper.load r a.mapper.create with
      | error e =>
        simp [smLoop, h, hl, List.countP_cons, Event.isCursorClose, Event.isQueryCall]
      | ok rec =>
        have hx := ih (budget.map (fun n => n - 1))
        simp [smLoop, h, hl, List.countP_cons, Event.isCursorClose, Event.isQueryCall,
          hx.1, hx.2]

theorem insert_cursor_balance {Record : Type} (a : SqlAdapterBase Record)
    (ctx : IContext) (record : Record) :
    (a.insert ctx record).trace.countP Event.isCursorClose
      = (a.insert ctx record).trace.countP Event.isQueryCall := by
  unfold SqlAdapterBase.insert
  cases a.sqlSource.getInsertSQL with
  | none => simp [List.countP_cons, Event.isCursorClose, Event.isQueryCall]
  | some sql =>
    cases ctx.dbApi with
    | none => simp [List.countP_cons, Event.isCursorClose, Event.isQueryCall]
    | some db =>
      by_cases h1 : hasMappingFlag a.mapper.flags MappingFlags.generatedOnInsert
      · cases hr : db.queryRows sql (a.mapper.getInsertParams record) with
        | nil =>
          simp [h1, hr, List.countP_append, List.countP_cons,
            Event.isCursorClose, Event.isQueryCall]
        | cons r rest =>
          cases hl : a.mapper.load r record <;>
            simp [h1, hr, hl, List.countP_append, List.countP_cons,
              Event.isCursorClose, Event.isQueryCall]
      · by_cases h2 : hasMappingFlag a.mapper.flags MappingFlags.generatedId
        · cases hr : db.queryRows sql (a.mapper.getInsertParams record) with
          | nil =>
            simp [h1, h2, hr, List.countP_append, List.countP_cons,
              Event.isCursorClose, Event.isQueryCall]
          | cons r rest =>
            simp [h1, h2, hr, List.countP_append, List.countP_cons,
              Event.isCursorClose, Event.isQueryCall]
        · simp [h1, h2, List.countP_append, List.countP_cons,
            Event.isCursorClose, Event.isQueryCall]

theorem update_cursor_balance {Record : Type} (a : SqlAdapterBase Record)
    (ctx : IContext) (record : Record) :
    (a.update ctx record).trace.countP Event.isCursorClose
      = (a.update ctx record).trace.countP Event.isQueryCall := by
  unfold SqlAdapterBase.update
  cases a.sqlSource.getUpdateSQL with
  | none => simp [List.countP_cons, Event.isCursorClose, Event.isQueryCall]
  | some sql =>
    cases ctx.dbApi with
    | none => simp [List.countP_cons, Event.isCursorClose, Event.isQueryCall]
    | some db =>
      by_cases h1 : hasMappingFlag a.mapper.flags MappingFlags.generatedOnUpdate
      · cases hr : db.queryRows sql (a.mapper.getUpdateParams record) with
        | nil =>
          simp [h1, hr, List.countP_append, List.countP_cons,
            Event.isCursorClose, Event.isQueryCall]
        | cons r rest =>
          cases hl : a.mapper.load r record <;>
            simp [h1, hr, hl, List.countP_append, List.countP_cons,
              Event.isCursorClose, Event.isQueryCall]
      · simp [h1, List.countP_append, List.countP_cons,
          Event.isCursorClose, Event.isQueryCall]

theorem delete_cursor_balance {Record : Type} (a : SqlAdapterBase Record)
    (ctx : IContext) (record : Record) :
    (a.delete ctx record).trace.countP Event.isCursorClose
      = (a.delete ctx record).trace.countP Event.isQueryCall := by
  unfold SqlAdapterBase.delete
  cases a.sqlSource.getDeleteSQL with
  | none => simp [List.countP_cons, Event.isCursorClose, Event.isQueryCall]
  | some sql =>
    cases ctx.dbApi with
    | none => simp [List.countP_cons, Event.isCursorClose, Event.isQueryCall]
    | some db => simp [List.countP_cons, Event.isCursorClose, Event.isQueryCall]

theorem selectOne_cursor_balance {Record : Type} (a : SqlAdapterBase Record)
    (ctx : IContext) (sop : Sum String ParamMap) (pOpt : Option ParamMap) :
    (a.selectOne ctx sop pOpt).trace.countP Event.isCursorClose
      = (a.selectOne ctx sop pOpt).trace.countP Event.isQueryCall := by
  unfold SqlAdapterBase.selectOne
  cases sop with
  | inl sql =>
    cases ctx.dbApi with
    | none => simp [resolveSelect, List.countP_cons, Event.isCursorClose, Event.isQueryCall]
    | some db =>
      cases hr : db.queryRows sql (toParamArray pOpt) with
      | nil =>
        simp [resolveSelect, hr, List.countP_append, List.countP_cons,
          Event.isCursorClose, Event.isQueryCall]
      | cons r rest =>
        cases hl : a.mapper.load r a.mapper.create <;>
          simp [resolveSelect, hr, hl, List.countP_append, List.countP_cons,
            Event.isCursorClose, Event.isQueryCall]
  | inr m =>
    cases ctx.dbApi with
    | none => simp [resolveSelect, List.countP_cons, Event.isCursorClose, Event.isQueryCall]
    | some db =>
      cases hr : db.queryRows (a.sqlSource.getSelectSQL (paramKeys m))
          (toParamArray (some m)) with
      | nil =>
        simp [resolveSelect, hr, List.countP_append, List.countP_cons,
          Event.isCursorClose, Event.isQueryCall]
      | cons r rest =>
        cases hl : a.mapper.load r a.mapper.create <;>
          simp [resolveSelect, hr, hl, List.countP_append, List.countP_cons,
            Event.isCursorClose, Event.isQueryCall]

theorem selectMany_cursor_balance {Record : Type} (a : SqlAdapterBase Record)
    (ctx : IContext) (sop : Sum String ParamMap) (pOpt : Option ParamMap)
    (budget : Option Nat) :
    (a.selectMany ctx sop pOpt budget).trace.countP Event.isCursorClose
      = (a.selectMany ctx sop pOpt budget).trace.countP Event.isQueryCall := by
  unfold SqlAdapterBase.selectMany
  by_cases hb : budget = some 0
  · simp [hb]
  · cases sop with
    | inl sql =>
      cases ctx.dbApi with
      | none => simp [hb, resolveSelect, List.countP_cons, Event.isCursorClose, Event.isQueryCall]
      | some db =>
        have hx := smLoop_cursor_balance a (db.queryRows sql (toParamArray pOpt)) budget
        simp [hb, resolveSelect, List.countP_append, List.countP_cons,
          Event.isCursorClose, Event.isQueryCall, hx.1, hx.2]
    | inr m =>
      cases ctx.dbApi with
      | none => simp [hb, resolveSelect, List.countP_cons, Event.isCursorClose, Event.isQueryCall]
      | some db =>
        have hx := smLoop_cursor_balance a
          (db.queryRows (a.sqlSource.getSelectSQL (paramKeys m)) (toParamArray (some m))) budget
        simp [hb, resolveSelect, List.countP_append, List.countP_cons,
          Event.isCursorClose, Event.isQueryCall, hx.1, hx.2]

/-- C2: every operation that opens a cursor (insert with a generated mode,
update with generatedOnUpdate, selectOne, selectMany, selectAll) closes it
exactly once on every exit path — normal completion, empty result, a
NonQueryResult error, a mapper load failure mid-consumption, and early
abandonment of a partially consumed selectMany — stated as: for every
statement source, mapper, executor, context, record, call shape and
consumption budget, each operation trace holds exactly as many cursor
closes as cursor opens (query calls); delete opens none and closes none. -/
theorem cursor_closed_exactly_once {Record : Type} (a : SqlAdapterBase Record)
    (ctx : IContext) (record : Record) (sop : Sum String ParamMap)
    (pOpt : Option ParamMap) (budget : Option Nat) :
    ((a.insert ctx record).trace.countP Event.isCursorClose
        = (a.insert ctx record).trace.countP Event.isQueryCall) ∧
    ((a.update ctx record).trace.countP Event.isCursorClose
        = (a.update ctx record).trace.countP Event.isQueryCall) ∧
    ((a.delete ctx record).trace.countP Event.isCursorClose
        = (a.delete ctx record).trace.countP Event.isQueryCall) ∧
    ((a.selectOne ctx sop pOpt).trace.countP Event.isCursorClose
        = (a.selectOne ctx sop pOpt).trace.countP Event.isQueryCall) ∧
    ((a.selectMany ctx sop pOpt budget).trace.countP Event.isCursorClose
        = (a.selectMany ctx sop pOpt budget).trace.countP Event.isQueryCall) ∧
    ((a.selectAll ctx budget).trace.countP Event.isCursorClose
        = (a.selectAll ctx budget).trace.countP Event.isQueryCall) :=
  ⟨insert_cursor_balance a ctx record, update_cursor_balance a ctx record,
    delete_cursor_balance a ctx record, selectOne_cursor_balance a ctx sop pOpt,
    selectMany_cursor_balance a ctx sop pOpt budget,
    selectMany_cursor_balance a ctx (.inr []) none budget⟩

/-- C1: the claim states that delete executes a single non-returning
command passing the extracted bind values positionally, one bind value per
parameter, per the executor contract.  Evaluating `delete` on a record with
two delete parameters shows the executor instead receives a single argument
holding the whole parameter array (the source omits the spread operator
used on every other execution path), which differs from the positional
parameter list; the statement is resolved, the parameters extracted, and no
cursor is involved. -/
theorem delete_exec_receives_array :
    ((⟨demoSource, demoMapper 0⟩ : SqlAdapterBase (List Value)).delete
        (demoCtx []) [Value.int 7, Value.int 8]).trace =
      [.getDeleteSQL, .requireDbApi, .getDeleteParams,
        .execCall "DELETE" [Value.arr [Value.int 7, Value.int 8]]] ∧
    ([Value.arr [Value.int 7, Value.int 8]] : List Value)
      ≠ [Value.int 7, Value.int 8] ∧
    ((⟨demoSource, demoMapper 0⟩ : SqlAdapterBase (List Value)).delete
        (demoCtx []) [Value.int 7, Value.int 8]).trace.countP Event.isQueryCall = 0 :=
  ⟨rfl, by decide, rfl⟩

/-- C3: for every record whose mapper flags include generatedId and not
generatedOnInsert (with insert SQL defined and a db api present), insert
runs the statement as a row-producing query: zero rows fails with
NonQueryResult and setKey is never called, leaving the record unchanged; a
first row makes setKey be called exactly once with that row's first column
value, and exactly one query and no exec is issued. -/
theorem insert_generatedId_spec {Record : Type} (a : SqlAdapterBase Record)
    (db : DbApi) (record : Record) (sql : String)
    (h1 : hasMappingFlag a.mapper.flags MappingFlags.generatedId = true)
    (h2 : hasMappingFlag a.mapper.flags MappingFlags.generatedOnInsert = false)
    (h3 : a.sqlSource.getInsertSQL = some sql) :
    ((a.insert ⟨some db⟩ record).outcome =
      (match db.queryRows sql (a.mapper.getInsertParams record) with
        | [] => .error (.recordError AdapterError.NON_QUERY
            "Expected generated id, but insert query returned no row")
        | _ :: _ => .ok ())) ∧
    ((a.insert ⟨some db⟩ record).record =
      (match db.queryRows sql (a.mapper.getInsertParams record) with
        | [] => record
        | r :: _ => a.mapper.setKey record (rowFirst r))) ∧
    (setKeyEvents (a.insert ⟨some db⟩ record).trace =
      (match db.queryRows sql (a.mapper.getInsertParams record) with
        | [] => []
        | r :: _ => [.mapperSetKey (rowFirst r)])) ∧
    ((a.insert ⟨some db⟩ record).trace.countP Event.isQueryCall = 1) ∧
    ((a.insert ⟨some db⟩ record).trace.countP Event.isExecCall = 0) := by
  unfold SqlAdapterBase.insert
  cases hr : db.queryRows sql (a.mapper.getInsertParams record) with
  | nil =>
    simp [h1, h2, h3, hr, setKeyEvents, List.countP_append, List.countP_cons,
      Event.isQueryCall, Event.isExecCall, Event.isMapperSetKey]
  | cons r rest =>
    simp [h1, h2, h3, hr, setKeyEvents, List.countP_append, List.countP_cons,
      Event.isQueryCall, Event.isExecCall, Event.isMapperSetKey]

/-- Witness for C3 at the spec's scenario: flags = generatedId, the query
yields one row containing 42, so insert sets the record key to 42, setKey
fires exactly once with value 42, and exactly one query (no exec) is
issued. -/
theorem insert_generatedId_spec_witness :
    hasMappingFlag (demoMapper 1).flags MappingFlags.generatedId = true ∧
    hasMappingFlag (demoMapper 1).flags MappingFlags.generatedOnInsert = false ∧
    ((⟨demoSource, demoMapper 1⟩ : SqlAdapterBase (List Value)).insert
        ⟨some (demoDb [[Value.int 42]])⟩ []).record = [Value.int 42] ∧
    setKeyEvents ((⟨demoSource, demoMapper 1⟩ : SqlAdapterBase (List Value)).insert
        ⟨some (demoDb [[Value.int 42]])⟩ []).trace = [.mapperSetKey (Value.int 42)] ∧
    ((⟨demoSource, demoMapper 1⟩ : SqlAdapterBase (List Value)).insert
        ⟨some (demoDb [[Value.int 42]])⟩ []).trace.countP Event.isQueryCall = 1 ∧
    ((⟨demoSource, demoMapper 1⟩ : SqlAdapterBase (List Value)).insert
        ⟨some (demoDb [[Value.int 42]])⟩ []).trace.countP Event.isExecCall = 0 := by
  have h := insert_generatedId_spec
    (⟨demoSource, demoMapper 1⟩ : SqlAdapterBase (List Value))
    (demoDb [[Value.int 42]]) [] "INSERT" rfl rfl rfl
  exact ⟨rfl, rfl, h.2.1, h.2.2.1, h.2.2.2.1, h.2.2.2.2⟩

/-- C4: for every record whose mapper flags include generatedOnInsert (for
insert) or generatedOnUpdate (for update), with the statement defined and a
db api present, the operation runs as a row-producing query (exactly one
query call): when a first row is present, load is called exactly once with
that row and the record becomes the loaded result; when the query yields
zero rows the operation fails with NonQueryResult and load is never
called. -/
theorem generated_row_load_spec {Record : Type} (a : SqlAdapterBase Record)
    (db : DbApi) (record : Record) (isql usql : String)
    (h1 : hasMappingFlag a.mapper.flags MappingFlags.generatedOnInsert = true)
    (h2 : hasMappingFlag a.mapper.flags MappingFlags.generatedOnUpdate = true)
    (h3 : a.sqlSource.getInsertSQL = some isql)
    (h4 : a.sqlSource.getUpdateSQL = some usql) :
    ((a.insert ⟨some db⟩ record).outcome =
      (match db.queryRows isql (a.mapper.getInsertParams record) with
        | [] => .error (.recordError AdapterError.NON_QUERY
            "Expected inserted row, but insert query returned no row")
        | r :: _ =>
          match a.mapper.load r record with
          | .ok _ => .ok ()
          | .error e => .error (.mapError e))) ∧
    ((a.insert ⟨some db⟩ record).record =
      (match db.queryRows isql (a.mapper.getInsertParams record) with
        | [] => record
        | r :: _ =>
          match a.mapper.load r record with
          | .ok rec => rec
          | .error _ => record)) ∧
    (loadEvents (a.insert ⟨some db⟩ record).trace =
      (match db.queryRows isql (a.mapper.getInsertParams record) with
        | [] => []
        | r :: _ => [.mapperLoad r])) ∧
    ((a.insert ⟨some db⟩ record).trace.countP Event.isQueryCall = 1) ∧
    ((a.update ⟨some db⟩ record).outcome =
      (match db.queryRows usql (a.mapper.getUpdateParams record) with
        | [] => .error (.recordError AdapterError.NON_QUERY
            "Expected updated row, but update query returned no row")
        | r :: _ =>
          match a.mapper.load r record with
          | .ok _ => .ok ()
          | .error e => .error (.mapError e))) ∧
    ((a.update ⟨some db⟩ record).record =
      (match db.queryRows usql (a.mapper.getUpdateParams record) with
        | [] => record
        | r :: _ =>
          match a.mapper.load r record with
          | .ok rec => rec
          | .error _ => record)) ∧
    (loadEvents (a.update ⟨some db⟩ record).trace =
      (match db.queryRows usql (a.mapper.getUpdateParams record) with
        | [] => []
        | r :: _ => [.mapperLoad r])) ∧
    ((a.update ⟨some db⟩ record).trace.countP Event.isQueryCall = 1) := by
  refine ⟨?_, ?_, ?_, ?_, ?_, ?_, ?_, ?_⟩ <;>
  · first
    | (unfold SqlAdapterBase.insert
       cases hr : db.queryRows isql (a.mapper.getInsertParams record) with
       | nil =>
         simp [h1, h3, hr, loadEvents, List.countP_append, List.countP_cons,
           Event.isQueryCall, Event.isMapperLoad]
       | cons r rest =>
         cases hl : a.mapper.load r record <;>
           simp [h1, h3, hr, hl, loadEvents, List.countP_append, List.countP_cons,
             Event.isQueryCall, Event.isMapperLoad])
    | (unfold SqlAdapterBase.update
       cases hr : db.queryRows usql (a.mapper.getUpdateParams record) with
       | nil =>
         simp [h2, h4, hr, loadEvents, List.countP_append, List.countP_cons,
           Event.isQueryCall, Event.isMapperLoad]
       | cons r rest =>
         cases hl : a.mapper.load r record <;>
           simp [h2, h4, hr, hl, loadEvents, List.countP_append, List.countP_cons,
             Event.isQueryCall, Event.isMapperLoad])

/-- Witness for C4: flags = generatedOnInsert plus generatedOnUpdate (bits 2
and 4), one returned row, so insert and update each load that row back onto
the record exactly once and each issue exactly one query. -/
theorem generated_row_load_spec_witness :
    hasMappingFlag (demoMapper 6).flags MappingFlags.generatedOnInsert = true ∧
    hasMappingFlag (demoMapper 6).flags MappingFlags.generatedOnUpdate = true ∧
    ((⟨demoSource, demoMapper 6⟩ : SqlAdapterBase (List Value)).insert
        ⟨some (demoDb [[Value.int 5, Value.str "a"]])⟩ []).record
      = [Value.int 5, Value.str "a"] ∧
    loadEvents ((⟨demoSource, demoMapper 6⟩ : SqlAdapterBase (List Value)).insert
        ⟨some (demoDb [[Value.int 5, Value.str "a"]])⟩ []).trace
      = [.mapperLoad [Value.int 5, Value.str "a"]] ∧
    ((⟨demoSource, demoMapper 6⟩ : SqlAdapterBase (List Value)).update
        ⟨some (demoDb [[Value.int 5, Value.str "a"]])⟩ []).record
      = [Value.int 5, Value.str "a"] ∧
    loadEvents ((⟨demoSource, demoMapper 6⟩ : SqlAdapterBase (List Value)).update
        ⟨some (demoDb [[Value.int 5, Value.str "a"]])⟩ []).trace
      = [.mapperLoad [Value.int 5, Value.str "a"]] := by
  have h := generated_row_load_spec
    (⟨demoSource, demoMapper 6⟩ : SqlAdapterBase (List Value))
    (demoDb [[Value.int 5, Value.str "a"]]) [] "INSERT" "UPDATE" rfl rfl rfl rfl
  exact ⟨rfl, rfl, h.2.1, h.2.2.1, h.2.2.2.2.2.1, h.2.2.2.2.2.2.1⟩

/-- C5: for insert, update and delete, when the Statement Source returns no
statement the call fails with MissingStatement, the trace is exactly the
failed statement lookup — so no parameter extraction, no executor
invocation, no query — and the record is left unchanged (no load or setKey
side effect). -/
theorem missing_statement_spec {Record : Type} (a : SqlAdapterBase Record)
    (ctx : IContext) (record : Record)
    (h1 : a.sqlSource.getInsertSQL = none)
    (h2 : a.sqlSource.getUpdateSQL = none)
    (h3 : a.sqlSource.getDeleteSQL = none) :
    ((a.insert ctx record).outcome =
      .error (.recordError AdapterError.MISSING_STATEMENT "INSERT SQL not defined")) ∧
    ((a.insert ctx record).record = record) ∧
    ((a.insert ctx record).trace = [.getInsertSQL]) ∧
    ((a.update ctx record).outcome =
      .error (.recordError AdapterError.MISSING_STATEMENT "UPDATE SQL not defined")) ∧
    ((a.update ctx record).record = record) ∧
    ((a.update ctx record).trace = [.getUpdateSQL]) ∧
    ((a.delete ctx record).outcome =
      .error (.recordError AdapterError.MISSING_STATEMENT "DELETE SQL not defined")) ∧
    ((a.delete ctx record).record = record) ∧
    ((a.delete ctx record).trace = [.getDeleteSQL]) ∧
    ((a.insert ctx record).trace.countP Event.isParamExtraction = 0) ∧
    ((a.insert ctx record).trace.countP Event.isExecCall = 0) ∧
    ((a.insert ctx record).trace.countP Event.isQueryCall = 0) ∧
    ((a.update ctx record).trace.countP Event.isParamExtraction = 0) ∧
    ((a.update ctx record).trace.countP Event.isExecCall = 0) ∧
    ((a.update ctx record).trace.countP Event.isQueryCall = 0) ∧
    ((a.delete ctx record).trace.countP Event.isParamExtraction = 0) ∧
    ((a.delete ctx record).trace.countP Event.isExecCall = 0) ∧
    ((a.delete ctx record).trace.countP Event.isQueryCall = 0) := by
  unfold SqlAdapterBase.insert SqlAdapterBase.update SqlAdapterBase.delete
  simp [h1, h2, h3, List.countP_cons, Event.isParamExtraction,
    Event.isExecCall, Event.isQueryCall]

/-- Witness for C5: a statement source defining no write statement makes
insert, update and delete each fail with MissingStatement after only the
statement lookup, leaving the record unchanged. -/
theorem missing_statement_spec_witness :
    bareSource.getInsertSQL = none ∧
    ((⟨bareSource, demoMapper 0⟩ : SqlAdapterBase (List Value)).insert
        (demoCtx []) [Value.int 1]).outcome =
      .error (.recordError AdapterError.MISSING_STATEMENT "INSERT SQL not defined") ∧
    ((⟨bareSource, demoMapper 0⟩ : SqlAdapterBase (List Value)).insert
        (demoCtx []) [Value.int 1]).record = [Value.int 1] ∧
    ((⟨bareSource, demoMapper 0⟩ : SqlAdapterBase (List Value)).update
        (demoCtx []) [Value.int 1]).trace = [.getUpdateSQL] ∧
    ((⟨bareSource, demoMapper 0⟩ : SqlAdapterBase (List Value)).delete
        (demoCtx []) [Value.int 1]).trace = [.getDeleteSQL] := by
  have h := missing_statement_spec
    (⟨bareSource, demoMapper 0⟩ : SqlAdapterBase (List Value))
    (demoCtx []) [Value.int 1] rfl rfl rfl
  exact ⟨rfl, h.1, h.2.1, h.2.2.2.2.2.1, h.2.2.2.2.2.2.2.2.1⟩

/-- C6: for every query (either call shape, db api present), selectOne over
zero result rows returns the explicit no-match result `ok none`, never an
error; over one or more rows it returns a single record built from the
first row only via the mapper's create then load; and on every path the
cursor is advanced exactly once — never past the first row — and closed
exactly once. -/
theorem selectOne_first_row_spec {Record : Type} (a : SqlAdapterBase Record)
    (db : DbApi) (sop : Sum String ParamMap) (pOpt : Option ParamMap) :
    ((a.selectOne ⟨some db⟩ sop pOpt).outcome =
      (match db.queryRows (resolveSelect a.sqlSource sop pOpt).1
          (toParamArray (resolveSelect a.sqlSource sop pOpt).2.1) with
        | [] => .ok none
        | r :: _ =>
          match a.mapper.load r a.mapper.create with
          | .ok rec => .ok (some rec)
          | .error e => .error (.mapError e))) ∧
    ((a.selectOne ⟨some db⟩ sop pOpt).trace.countP Event.isCursorNext = 1) ∧
    ((a.selectOne ⟨some db⟩ sop pOpt).trace.countP Event.isCursorClose = 1) ∧
    (loadEvents (a.selectOne ⟨some db⟩ sop pOpt).trace =
      (match db.queryRows (resolveSelect a.sqlSource sop pOpt).1
          (toParamArray (resolveSelect a.sqlSource sop pOpt).2.1) with
        | [] => []
        | r :: _ => [.mapperLoad r])) ∧
    ((a.selectOne ⟨some db⟩ sop pOpt).trace.countP Event.isMapperCreate =
      (match db.queryRows (resolveSelect a.sqlSource sop pOpt).1
          (toParamArray (resolveSelect a.sqlSource sop pOpt).2.1) with
        | [] => 0
        | _ :: _ => 1)) := by
  unfold SqlAdapterBase.selectOne
  cases sop with
  | inl sql =>
    cases hr : db.queryRows sql (toParamArray pOpt) with
    | nil =>
      simp [resolveSelect, hr, loadEvents, List.countP_append, List.countP_cons,
        Event.isCursorNext, Event.isCursorClose, Event.isMapperLoad,
        Event.isMapperCreate]
    | cons r rest =>
      cases hl : a.mapper.load r a.mapper.create <;>
        simp [resolveSelect, hr, hl, loadEvents, List.countP_append,
          List.countP_cons, Event.isCursorNext, Event.isCursorClose,
          Event.isMapperLoad, Event.isMapperCreate]
  | inr m =>
    cases hr : db.queryRows (a.sqlSource.getSelectSQL (paramKeys m))
        (toParamArray (some m)) with
    | nil =>
      simp [resolveSelect, hr, loadEvents, List.countP_append, List.countP_cons,
        Event.isCursorNext, Event.isCursorClose, Event.isMapperLoad,
        Event.isMapperCreate]
    | cons r rest =>
      cases hl : a.mapper.load r a.mapper.create <;>
        simp [resolveSelect, hr, hl, loadEvents, List.countP_append,
          List.countP_cons, Event.isCursorNext, Event.isCursorClose,
          Event.isMapperLoad, Event.isMapperCreate]

theorem smLoop_drain {Record : Type} (a : SqlAdapterBase Record) (f : Row → Record)
    (hload : ∀ r, a.mapper.load r a.mapper.create = .ok (f r)) :
    ∀ rows : List Row,
      (smLoop a rows none).1 = rows.map f ∧
      (smLoop a rows none).2.2 = .ok () ∧
      loadEvents (smLoop a rows none).2.1 = rows.map Event.mapperLoad ∧
      (smLoop a rows none).2.1.countP Event.isMapperCreate = rows.length := by
  intro rows
  induction rows with
  | nil =>
    simp [smLoop, loadEvents, Event.isMapperLoad, Event.isMapperCreate,
      List.countP_cons]
  | cons r rest ih =>
    obtain ⟨ih1, ih2, ih3, ih4⟩ := ih
    simp only [loadEvents] at ih3 ⊢
    refine ⟨?_, ?_, ?_, ?_⟩ <;>
      simp [smLoop, hload r, Event.isMapperLoad, Event.isMapperCreate,
        List.countP_cons, List.filter_cons, ih1, ih2, ih3, ih4]

/-- C7: for every query producing N rows (db api present, every row mapping
succeeding with result f), a fully consumed selectMany yields exactly the N
mapped records in cursor order, with one mapper create and one load per row
in that order; the call issues exactly one query, so two separate calls —
the only way to traverse twice, the sequence being single-pass — issue two
independent queries, as the concatenated trace of two calls shows. -/
theorem selectMany_yields_all_spec {Record : Type} (a : SqlAdapterBase Record)
    (db : DbApi) (sop : Sum String ParamMap) (pOpt : Option ParamMap)
    (f : Row → Record)
    (hload : ∀ r, a.mapper.load r a.mapper.create = .ok (f r)) :
    ((a.selectMany ⟨some db⟩ sop pOpt none).records =
      (db.queryRows (resolveSelect a.sqlSource sop pOpt).1
        (toParamArray (resolveSelect a.sqlSource sop pOpt).2.1)).map f) ∧
    ((a.selectMany ⟨some db⟩ sop pOpt none).outcome = .ok ()) ∧
    (loadEvents (a.selectMany ⟨some db⟩ sop pOpt none).trace =
      (db.queryRows (resolveSelect a.sqlSource sop pOpt).1
        (toParamArray (resolveSelect a.sqlSource sop pOpt).2.1)).map Event.mapperLoad) ∧
    ((a.selectMany ⟨some db⟩ sop pOpt none).trace.countP Event.isMapperCreate =
      (db.queryRows (resolveSelect a.sqlSource sop pOpt).1
        (toParamArray (resolveSelect a.sqlSource sop pOpt).2.1)).length) ∧
    ((a.selectMany ⟨some db⟩ sop pOpt none).trace.countP Event.isQueryCall = 1) ∧
    (((a.selectMany ⟨some db⟩ sop pOpt none).trace ++
        (a.selectMany ⟨some db⟩ sop pOpt none).trace).countP Event.isQueryCall = 2) := by
  have hq := fun rows => (smLoop_cursor_balance a rows none).2
  cases sop with
  | inl sql =>
    obtain ⟨hd1, hd2, hd3, hd4⟩ := smLoop_drain a f hload
      (db.queryRows sql (toParamArray pOpt))
    simp only [loadEvents] at hd3 ⊢
    refine ⟨?_, ?_, ?_, ?_, ?_, ?_⟩ <;>
      simp [SqlAdapterBase.selectMany, resolveSelect,
        List.countP_append, List.countP_cons, List.filter_append,
        List.filter_cons, Event.isQueryCall, Event.isMapperCreate,
        Event.isMapperLoad, hd1, hd2, hd3, hd4,
        hq (db.queryRows sql (toParamArray pOpt))]
  | inr m =>
    obtain ⟨hd1, hd2, hd3, hd4⟩ := smLoop_drain a f hload
      (db.queryRows (a.sqlSource.getSelectSQL (paramKeys m)) (toParamArray (some m)))
    simp only [loadEvents] at hd3 ⊢
    refine ⟨?_, ?_, ?_, ?_, ?_, ?_⟩ <;>
      simp [SqlAdapterBase.selectMany, resolveSelect,
        List.countP_append, List.countP_cons, List.filter_append,
        List.filter_cons, Event.isQueryCall, Event.isMapperCreate,
        Event.isMapperLoad, hd1, hd2, hd3, hd4,
        hq (db.queryRows (a.sqlSource.getSelectSQL (paramKeys m)) (toParamArray (some m)))]

/-- Witness for C7: two result rows, identity mapping; the fully consumed
sequence is the two records in cursor order, with one load per row, one
query per call and two queries across two calls. -/
theorem selectMany_yields_all_spec_witness :
    ((⟨demoSource, demoMapper 0⟩ : SqlAdapterBase (List Value)).selectMany
        ⟨some (demoDb [[Value.int 1], [Value.int 2]])⟩ (.inl "SELECT") none none).records
      = [[Value.int 1], [Value.int 2]] ∧
    ((⟨demoSource, demoMapper 0⟩ : SqlAdapterBase (List Value)).selectMany
        ⟨some (demoDb [[Value.int 1], [Value.int 2]])⟩ (.inl "SELECT") none none).outcome
      = .ok () ∧
    loadEvents ((⟨demoSource, demoMapper 0⟩ : SqlAdapterBase (List Value)).selectMany
        ⟨some (demoDb [[Value.int 1], [Value.int 2]])⟩ (.inl "SELECT") none none).trace
      = [.mapperLoad [Value.int 1], .mapperLoad [Value.int 2]] ∧
    ((⟨demoSource, demoMapper 0⟩ : SqlAdapterBase (List Value)).selectMany
        ⟨some (demoDb [[Value.int 1], [Value.int 2]])⟩ (.inl "SELECT") none none).trace.countP
        Event.isQueryCall = 1 ∧
    (((⟨demoSource, demoMapper 0⟩ : SqlAdapterBase (List Value)).selectMany
        ⟨some (demoDb [[Value.int 1], [Value.int 2]])⟩ (.inl "SELECT") none none).trace ++
      ((⟨demoSource, demoMapper 0⟩ : SqlAdapterBase (List Value)).selectMany
        ⟨some (demoDb [[Value.int 1], [Value.int 2]])⟩ (.inl "SELECT") none none).trace).countP
        Event.isQueryCall = 2 := by
  have h := selectMany_yields_all_spec
    (⟨demoSource, demoMapper 0⟩ : SqlAdapterBase (List Value))
    (demoDb [[Value.int 1], [Value.int 2]]) (.inl "SELECT") none
    (fun r => r) (fun _ => rfl)
  exact ⟨h.1, h.2.1, h.2.2.1, h.2.2.2.2.1, h.2.2.2.2.2⟩

/-- C8: for every selectOne or selectMany call supplying only a filter
mapping (no explicit SQL, db api present, sequence consumed), the core asks
the Statement Source for a select statement parameterized over exactly the
mapping's column names in key-enumeration order, then issues the query over
that derived SQL binding the mapping's values positionally in that same
order — shown by the first three trace events. -/
theorem filter_mapping_spec {Record : Type} (a : SqlAdapterBase Record)
    (db : DbApi) (m : ParamMap) (pOpt : Option ParamMap) :
    ((a.selectOne ⟨some db⟩ (.inr m) pOpt).trace.take 3 =
      [.getSelectSQL (paramKeys m), .requireDbApi,
        .queryCall (a.sqlSource.getSelectSQL (paramKeys m)) (m.map (fun p => p.2))]) ∧
    ((a.selectMany ⟨some db⟩ (.inr m) pOpt none).trace.take 3 =
      [.getSelectSQL (paramKeys m), .requireDbApi,
        .queryCall (a.sqlSource.getSelectSQL (paramKeys m)) (m.map (fun p => p.2))]) := by
  constructor
  · unfold SqlAdapterBase.selectOne
    cases hr : db.queryRows (a.sqlSource.getSelectSQL (paramKeys m))
        (List.map (fun p => p.2) m) with
    | nil => simp [resolveSelect, hr, toParamArray]
    | cons r rest =>
      cases hl : a.mapper.load r a.mapper.create <;>
        simp [resolveSelect, hr, hl, toParamArray]
  · unfold SqlAdapterBase.selectMany
    simp [resolveSelect, toParamArray]

/-- C9: for every record whose generation mode is none (neither generatedId
nor generatedOnInsert set, insert SQL defined, db api present), insert
issues exactly one non-returning execution with the extracted parameters
spread positionally, opens no cursor, never calls create, load or setKey,
and leaves the record unchanged. -/
theorem insert_none_mode_spec {Record : Type} (a : SqlAdapterBase Record)
    (db : DbApi) (record : Record) (sql : String)
    (h1 : hasMappingFlag a.mapper.flags MappingFlags.generatedOnInsert = false)
    (h2 : hasMappingFlag a.mapper.flags MappingFlags.generatedId = false)
    (h3 : a.sqlSource.getInsertSQL = some sql) :
    ((a.insert ⟨some db⟩ record).outcome = .ok ()) ∧
    ((a.insert ⟨some db⟩ record).record = record) ∧
    ((a.insert ⟨some db⟩ record).trace =
      [.getInsertSQL, .requireDbApi, .getInsertParams,
        .execCall sql (a.mapper.getInsertParams record)]) ∧
    ((a.insert ⟨some db⟩ record).trace.countP Event.isExecCall = 1) ∧
    ((a.insert ⟨some db⟩ record).trace.countP Event.isQueryCall = 0) ∧
    (loadEvents (a.insert ⟨some db⟩ record).trace = []) ∧
    (setKeyEvents (a.insert ⟨some db⟩ record).trace = []) ∧
    ((a.insert ⟨some db⟩ record).trace.countP Event.isMapperCreate = 0) := by
  unfold SqlAdapterBase.insert
  simp [h1, h2, h3, loadEvents, setKeyEvents, List.countP_cons, List.filter_cons,
    Event.isExecCall, Event.isQueryCall, Event.isMapperLoad, Event.isMapperSetKey,
    Event.isMapperCreate]

/-- Witness for C9: flags bitset 0, so insert performs the single exec and
nothing else. -/
theorem insert_none_mode_spec_witness :
    hasMappingFlag (demoMapper 0).flags MappingFlags.generatedOnInsert = false ∧
    hasMappingFlag (demoMapper 0).flags MappingFlags.generatedId = false ∧
    ((⟨demoSource, demoMapper 0⟩ : SqlAdapterBase (List Value)).insert
        ⟨some (demoDb [])⟩ [Value.int 3]).outcome = .ok () ∧
    ((⟨demoSource, demoMapper 0⟩ : SqlAdapterBase (List Value)).insert
        ⟨some (demoDb [])⟩ [Value.int 3]).record = [Value.int 3] ∧
    ((⟨demoSource, demoMapper 0⟩ : SqlAdapterBase (List Value)).insert
        ⟨some (demoDb [])⟩ [Value.int 3]).trace =
      [.getInsertSQL, .requireDbApi, .getInsertParams,
        .execCall "INSERT" [Value.int 3]] ∧
    ((⟨demoSource, demoMapper 0⟩ : SqlAdapterBase (List Value)).insert
        ⟨some (demoDb [])⟩ [Value.int 3]).trace.countP Event.isQueryCall = 0 := by
  have h := insert_none_mode_spec
    (⟨demoSource, demoMapper 0⟩ : SqlAdapterBase (List Value))
    (demoDb []) [Value.int 3] "INSERT" rfl rfl rfl
  exact ⟨rfl, rfl, h.1, h.2.1, h.2.2.1, h.2.2.2.2.1⟩

/-- C10: every operation resolves the query executor from the call context
at call time: when the context carries no db api (statements being defined),
the call fails with the lookup error and its trace ends at the lookup — no
parameter extraction and no executor invocation — and on the write paths
with a db api present the first three events show the lookup happening
after the missing-statement check and before parameter extraction. -/
theorem dbapi_lookup_spec {Record : Type} (a : SqlAdapterBase Record)
    (record : Record) (sop : Sum String ParamMap) (pOpt : Option ParamMap)
    (isql usql dsql : String)
    (h1 : a.sqlSource.getInsertSQL = some isql)
    (h2 : a.sqlSource.getUpdateSQL = some usql)
    (h3 : a.sqlSource.getDeleteSQL = some dsql) :
    ((a.insert noDbCtx record).outcome = .error .noDbApi ∧
      (a.insert noDbCtx record).trace = [.getInsertSQL, .requireDbApi]) ∧
    ((a.update noDbCtx record).outcome = .error .noDbApi ∧
      (a.update noDbCtx record).trace = [.getUpdateSQL, .requireDbApi]) ∧
    ((a.delete noDbCtx record).outcome = .error .noDbApi ∧
      (a.delete noDbCtx record).trace = [.getDeleteSQL, .requireDbApi]) ∧
    ((a.selectOne noDbCtx sop pOpt).outcome = .error .noDbApi ∧
      (a.selectOne noDbCtx sop pOpt).trace =
        (resolveSelect a.sqlSource sop pOpt).2.2 ++ [.requireDbApi]) ∧
    ((a.selectMany noDbCtx sop pOpt none).outcome = .error .noDbApi ∧
      (a.selectMany noDbCtx sop pOpt none).trace =
        (resolveSelect a.sqlSource sop pOpt).2.2 ++ [.requireDbApi]) ∧
    (∀ db : DbApi, (a.insert ⟨some db⟩ record).trace.take 3 =
      [.getInsertSQL, .requireDbApi, .getInsertParams]) ∧
    (∀ db : DbApi, (a.update ⟨some db⟩ record).trace.take 3 =
      [.getUpdateSQL, .requireDbApi, .getUpdateParams]) ∧
    (∀ db : DbApi, (a.delete ⟨some db⟩ record).trace.take 3 =
      [.getDeleteSQL, .requireDbApi, .getDeleteParams]) := by
  refine ⟨?_, ?_, ?_, ?_, ?_, ?_, ?_, ?_⟩
  · unfold SqlAdapterBase.insert
    simp [h1, noDbCtx]
  · unfold SqlAdapterBase.update
    simp [h2, noDbCtx]
  · unfold SqlAdapterBase.delete
    simp [h3, noDbCtx]
  · unfold SqlAdapterBase.selectOne
    simp [noDbCtx]
  · unfold SqlAdapterBase.selectMany
    simp [noDbCtx]
  · intro db
    unfold SqlAdapterBase.insert
    by_cases hf1 : hasMappingFlag a.mapper.flags MappingFlags.generatedOnInsert
    · cases hr : db.queryRows isql (a.mapper.getInsertParams record) with
      | nil => simp [h1, hf1, hr]
      | cons r rest => cases hl : a.mapper.load r record <;> simp [h1, hf1, hr, hl]
    · by_cases hf2 : hasMappingFlag a.mapper.flags MappingFlags.generatedId
      · cases hr : db.queryRows isql (a.mapper.getInsertParams record) with
        | nil => simp [h1, hf1, hf2, hr]
        | cons r rest => simp [h1, hf1, hf2, hr]
      · simp [h1, hf1, hf2]
  · intro db
    unfold SqlAdapterBase.update
    by_cases hf1 : hasMappingFlag a.mapper.flags MappingFlags.generatedOnUpdate
    · cases hr : db.queryRows usql (a.mapper.getUpdateParams record) with
      | nil => simp [h2, hf1, hr]
      | cons r rest => cases hl : a.mapper.load r record <;> simp [h2, hf1, hr, hl]
    · simp [h2, hf1]
  · intro db
    unfold SqlAdapterBase.delete
    simp [h3]

/-- Witness for C10: with all statements defined but no db api in the
context, insert fails at the lookup with only the statement lookup and the
db-api lookup in its trace, and with a db api present the write trace
starts statement lookup, then db-api lookup, then parameter extraction. -/
theorem dbapi_lookup_spec_witness :
    demoSource.getInsertSQL = some "INSERT" ∧
    ((⟨demoSource, demoMapper 0⟩ : SqlAdapterBase (List Value)).insert
        noDbCtx []).outcome = .error .noDbApi ∧
    ((⟨demoSource, demoMapper 0⟩ : SqlAdapterBase (List Value)).insert
        noDbCtx []).trace = [.getInsertSQL, .requireDbApi] ∧
    ((⟨demoSource, demoMapper 0⟩ : SqlAdapterBase (List Value)).selectOne
        noDbCtx (.inl "SELECT") none).outcome = .error .noDbApi ∧
    ((⟨demoSource, demoMapper 0⟩ : SqlAdapterBase (List Value)).insert
        ⟨some (demoDb [])⟩ []).trace.take 3 =
      [.getInsertSQL, .requireDbApi, .getInsertParams] := by
  have h := dbapi_lookup_spec
    (⟨demoSource, demoMapper 0⟩ : SqlAdapterBase (List Value))
    [] (.inl "SELECT") none "INSERT" "UPDATE" "DELETE" rfl rfl rfl
  exact ⟨rfl, h.1.1, h.1.2, h.2.2.2.1.1, h.2.2.2.2.2.1 (demoDb [])⟩
